import Mathlib

/-!
Shallow embedding of the tab/session state machine of the
"Custom-Private-Degoogled-Web-Browser" repository.

The repository holds three variants of the same PyQt5 browser shell:
`browser.py` and, in one concatenated file, `Beta V2.py` and
`Browser V3.py`.  `Beta V2.py` is the richest variant (shared history,
bookmarks, session save/restore, private tabs, ad-block injection); the
functions cited by the specification are embedded from it, with the
`Browser V3.py` navigate policy (search fallback) embedded separately.
Qt classes are modelled by the state they carry: a `QTabWidget` is the
ordered list of its pages together with each page's tab label, a
`QWebEngineView`'s navigation state is the fields the Python code reads
and writes (`is_home`, `private`, current url, title), and Qt signal
dispatch runs the connected slots in connection order.
-/

namespace Browser

/-- One browser tab, as the fields of `BrowserTab` that the Python code
reads and writes: the `private` constructor flag, the `is_home` flag
(initially `True`), the visibility flag, and the url the wrapped
`QWebEngineView` currently reports (`w.url().toString()`). -/
structure BrowserTab where
  isPrivate : Bool
  is_home : Bool
  visible : Bool
  url : String
  deriving Repr, DecidableEq

/-- A fresh tab as `BrowserTab.__init__` leaves it: `is_home = True`,
hidden until the first load finishes, showing the synthetic home page
(no network url yet). -/
def BrowserTab.init (isPrivate : Bool) : BrowserTab :=
  { isPrivate := isPrivate, is_home := true, visible := false, url := "" }

/-- `BrowserTab.load_url`: clears `is_home` and instructs the engine to
navigate (`self.load(QUrl(url))`); the view's reported url becomes the
requested one. -/
def load_url (t : BrowserTab) (u : String) : BrowserTab :=
  { t with is_home := false, url := u }

/-- `BrowserTab.finish_load`, the slot connected to `loadFinished`:
sets `is_home = True` and makes the view visible. -/
def finish_load (t : BrowserTab) : BrowserTab :=
  { t with is_home := true, visible := true }

/-- `SimpleBrowser.go_home` restricted to the tab it mutates: sets
`is_home = True` and replaces the content with the home page. -/
def go_home (t : BrowserTab) : BrowserTab :=
  { t with is_home := true, url := "" }

/-- `BrowserTab.on_url_changed(qurl)`: ignores the event if the url is
empty or the tab is in home state; otherwise appends the url to the
shared history when it is absent and the tab is not private, persisting
via `save_json`.  Returns the new history list and whether `save_json`
was called. -/
def on_url_changed (history : List String) (t : BrowserTab) (u : String) :
    List String × Bool :=
  if u = "" ∨ t.is_home then (history, false)
  else if u ≠ "" ∧ u ∉ history ∧ t.isPrivate = false then
    (history ++ [u], true)
  else (history, false)

/-- `BrowserTab.inject_adblock_js`, the second slot connected to
`loadFinished`: runs the fixed selector-removal script iff the tab is
not in home state.  Returns how many times the script ran (0 or 1). -/
def inject_adblock_js (t : BrowserTab) : Nat :=
  if t.is_home = false then 1 else 0

/-- The full `loadFinished` dispatch of `Beta V2.py`: Qt delivers the
signal to the connected slots in connection order, `finish_load` first,
then `inject_adblock_js`.  Returns the tab state after the event and
the number of ad-block script executions it triggered. -/
def on_load_finished (t : BrowserTab) : BrowserTab × Nat :=
  let t1 := finish_load t
  (t1, inject_adblock_js t1)

/-- `SimpleBrowser.close_tab(i)`: removes the page at index `i` only
when more than one tab is open (`QTabWidget.removeTab` with an
out-of-range index is a no-op, as is `List.eraseIdx`).  Polymorphic in
the page representation since the guard only consults
`self.tabs.count()`. -/
def close_tab {α : Type} (tabs : List α) (i : Nat) : List α :=
  if 1 < tabs.length then tabs.eraseIdx i else tabs

/-- `SimpleBrowser.add_tab` restricted to the tab list: constructs a
fresh `BrowserTab` (private or sharing the default profile), appends it,
and, when a url is given (non-empty, Python truthiness), immediately
calls `load_url` on it. -/
def add_tab (tabs : List BrowserTab) (url : Option String) (isPrivate : Bool) :
    List BrowserTab :=
  let fresh := BrowserTab.init isPrivate
  let fresh := match url with
    | some u => if u ≠ "" then load_url fresh u else fresh
    | none => fresh
  tabs ++ [fresh]

/-- Character-list test that `s` begins with `pre` (Python
`str.startswith` on one candidate). -/
def listStartsWith : List Char → List Char → Bool
  | _, [] => true
  | [], _ :: _ => false
  | c :: cs, p :: ps => (c == p) && listStartsWith cs ps

/-- `text.startswith(('http://', 'https://'))`. -/
def hasSchemePrefix (s : String) : Bool :=
  listStartsWith s.data "http://".data ||
  listStartsWith s.data "https://".data

/-- Python `str.strip()`: drop leading and trailing whitespace. -/
def pyStrip (s : String) : String :=
  String.mk
    (((s.data.dropWhile Char.isWhitespace).reverse.dropWhile
      Char.isWhitespace).reverse)

/-- `SimpleBrowser.navigate` of `browser.py` and `Beta V2.py` (variant
A), restricted to its url-resolution: strip the address-bar text and
prepend `https://` unless the text already carries an explicit scheme
prefix. -/
def navigate (text : String) : String :=
  let url := pyStrip text
  if hasSchemePrefix url then url else "https://" ++ url

/-- The UTF-8 bytes of one character, as Python encodes the string
before percent-quoting. -/
def utf8Bytes (c : Char) : List Nat :=
  let n := c.toNat
  if n < 128 then [n]
  else if n < 2048 then [192 + n / 64, 128 + n % 64]
  else if n < 65536 then [224 + n / 4096, 128 + (n / 64) % 64, 128 + n % 64]
  else [240 + n / 262144, 128 + (n / 4096) % 64, 128 + (n / 64) % 64,
        128 + n % 64]

/-- The bytes `urllib.parse.quote_plus` leaves unquoted: ASCII letters,
digits, `_`, `.`, `-`, `~`. -/
def isAlwaysSafeByte (b : Nat) : Bool :=
  (decide (48 ≤ b) && decide (b ≤ 57)) ||
  (decide (65 ≤ b) && decide (b ≤ 90)) ||
  (decide (97 ≤ b) && decide (b ≤ 122)) ||
  decide (b = 95) || decide (b = 46) || decide (b = 45) || decide (b = 126)

/-- Uppercase hexadecimal digit. -/
def hexUpper (n : Nat) : Char :=
  if n < 10 then Char.ofNat (48 + n) else Char.ofNat (55 + n)

/-- `urllib.parse.quote_plus` per byte: a space becomes `+`, an
always-safe byte stands for itself, anything else is percent-encoded. -/
def quoteByte (b : Nat) : List Char :=
  if b = 32 then ['+']
  else if isAlwaysSafeByte b then [Char.ofNat b]
  else ['%', hexUpper (b / 16), hexUpper (b % 16)]

/-- `urllib.parse.quote_plus(text)`. -/
def quote_plus (s : String) : String :=
  String.mk ((s.data.flatMap utf8Bytes).flatMap quoteByte)

/-- `SimpleBrowser.navigate` of `Browser V3.py` (variant B with search
fallback), restricted to its url-resolution: explicit scheme kept
as-is; text with a dot and no space (`'.' in text and ' ' not in
text`) gets `https://` prepended; otherwise the text is
percent-encoded and submitted to the DuckDuckGo query endpoint. -/
def navigateV3 (text0 : String) : String :=
  let text := pyStrip text0
  if hasSchemePrefix text then text
  else if text.data.contains '.' && !(text.data.contains ' ') then
    "https://" ++ text
  else "https://duckduckgo.com/?q=" ++ quote_plus text

/-- The user-driven operations on the tab collection quantified over by
the tab-count invariant. -/
inductive TabOp where
  | addTab (url : Option String) (isPrivate : Bool)
  | closeTab (i : Nat)
  deriving Repr, DecidableEq

/-- Run one `TabOp` against the tab list. -/
def applyTabOp (tabs : List BrowserTab) (op : TabOp) : List BrowserTab :=
  match op with
  | .addTab url isPrivate => add_tab tabs url isPrivate
  | .closeTab i => close_tab tabs i

/-- Run a sequence of operations from the initial window, which opens
one default tab (`self.add_tab()` at the end of
`SimpleBrowser.__init__`). -/
def runTabOps (ops : List TabOp) : List BrowserTab :=
  ops.foldl applyTabOp (add_tab [] none false)

/-- One entry of `session.json`: `{'url': ..., 'private': ...}`, where
an empty url records a tab that was on the home page. -/
structure SessionEntry where
  url : String
  isPrivate : Bool
  deriving Repr, DecidableEq

/-- `SimpleBrowser.save_session`: serialize every tab, in tab order, as
`{'url': w.url().toString() if not w.is_home else '', 'private':
w.private}`. -/
def save_session (tabs : List BrowserTab) : List SessionEntry :=
  tabs.map (fun w => ⟨if w.is_home then "" else w.url, w.isPrivate⟩)

/-- The session-restore loop at the end of `SimpleBrowser.__init__`:
if the loaded session list is non-empty, `add_tab(s.get('url'),
private=s.get('private', False))` for each entry in order; otherwise a
single default `add_tab()`. -/
def restore_session (entries : List SessionEntry) : List BrowserTab :=
  if entries = [] then add_tab [] none false
  else entries.foldl (fun tabs s => add_tab tabs (some s.url) s.isPrivate) []

/-- The tab that `add_tab(url, private)` constructs for one session
entry: fresh, then loaded iff the entry's url is non-empty (Python
truthiness of `if url:`). -/
def restoreEntry (s : SessionEntry) : BrowserTab :=
  if s.url ≠ "" then load_url (BrowserTab.init s.isPrivate) s.url
  else BrowserTab.init s.isPrivate

/-- A bookmark entry `{'title': ..., 'url': ...}`. -/
structure Bookmark where
  title : String
  url : String
  deriving Repr, DecidableEq

/-- The user-visible `QMessageBox.information` notices that
`SimpleBrowser.add_bookmark` can show. -/
inductive BookmarkNotice where
  | alreadyBookmarked
  | bookmarked (title : String)
  deriving Repr, DecidableEq

/-- `SimpleBrowser.add_bookmark`, as a function of the active tab's
home flag, its current url and title, and the bookmark list.  When the
tab is on the home page the guard `isinstance(w, BrowserTab) and not
w.is_home` fails and the method falls through doing nothing.  When the
url is already in the list (`any(b['url'] == url ...)`) it shows the
'already bookmarked' notice and returns.  Otherwise it appends
`{'title': title, 'url': url}`, persists via `save_json`, and shows the
confirmation notice.  Result: the new bookmark list, the notice shown
(if any), and whether `save_json` was called. -/
def add_bookmark (is_home : Bool) (url title : String)
    (bookmarks : List Bookmark) :
    List Bookmark × Option BookmarkNotice × Bool :=
  if is_home = false then
    if bookmarks.any (fun b => b.url == url) then
      (bookmarks, some .alreadyBookmarked, false)
    else
      (bookmarks ++ [⟨title, url⟩], some (.bookmarked title), true)
  else (bookmarks, none, false)

/-- Result of a Python expression that may raise: a value, or an
exception (every exception is alike to a bare `except:`). -/
inductive PyResult (α : Type) where
  | ok (val : α)
  | exc
  deriving Repr, DecidableEq

/-- The file system the JSON stores live on: contents per path, plus
the set of paths a write can currently succeed on. -/
structure FileSys where
  files : List (String × String)
  writablePaths : List String
  deriving Repr, DecidableEq

/-- `open(path, 'r')` followed by `.read()`: the contents, or an
exception when the file is missing. -/
def fsRead (fs : FileSys) (path : String) : PyResult String :=
  match fs.files.find? (fun pc => pc.1 == path) with
  | some pc => .ok pc.2
  | none => .exc

/-- `open(path, 'w')` followed by a write: overwrites the file on
success, raises when the path is not writable. -/
def fsWrite (fs : FileSys) (path content : String) : PyResult FileSys :=
  if fs.writablePaths.contains path then
    .ok { fs with
          files := (path, content) :: fs.files.filter (fun pc => !(pc.1 == path)) }
  else .exc

/-- `load_json(path, default)` with the JSON parser abstracted as a
function that may raise: `try: return json.load(f)` with every failure
— missing file or corrupt content — caught by the bare `except:`
returning `default`.  The plain return type `α` (not `PyResult α`)
embodies that the call never raises to the caller. -/
def load_json {α : Type} (fs : FileSys) (path : String)
    (parse : String → PyResult α) (default : α) : α :=
  match fsRead fs path with
  | .ok s =>
      match parse s with
      | .ok v => v
      | .exc => default
  | .exc => default

/-- `save_json(path, data)` with `data` already serialized: `try:` the
write, `except: pass`.  The call returns normally either way (return
type `FileSys`, no error channel) and leaves the file system unchanged
when the write raises. -/
def save_json (fs : FileSys) (path serialized : String) : FileSys :=
  match fsWrite fs path serialized with
  | .ok fs2 => fs2
  | .exc => fs

/-- One page of the `QTabWidget` as `add_tab` wires it: the underlying
browser object (identified by `tabId`), the creation-time index that
the title-changed lambda captured through its default argument
(`lambda t, i=idx: ...`), and the current tab label. -/
structure TabItem where
  tabId : Nat
  capturedIdx : Nat
  label : String
  deriving Repr, DecidableEq

/-- `QTabWidget.setTabText(i, text)`: sets the label of the page at
position `i`; out of range is a no-op. -/
def setTabText : List TabItem → Nat → String → List TabItem
  | [], _, _ => []
  | t :: ts, 0, text => { t with label := text } :: ts
  | t :: ts, n + 1, text => t :: setTabText ts n text

/-- The `titleChanged` slot that `add_tab` connects for a tab whose
creation index was `i`:
`lambda t, i=idx: self.tabs.setTabText(i, t or 'New Tab')`. -/
def title_changed_handler (tabs : List TabItem) (i : Nat) (t : String) :
    List TabItem :=
  setTabText tabs i (if t = "" then "New Tab" else t)

theorem close_tab_length_ge (tabs : List BrowserTab) (i : Nat)
    (h : 1 ≤ tabs.length) : 1 ≤ (close_tab tabs i).length := by
  unfold close_tab
  split
  · rcases Nat.lt_or_ge i tabs.length with hi | hi
    · rw [List.length_eraseIdx_of_lt hi]
      omega
    · rw [List.eraseIdx_of_length_le hi]
      omega
  · exact h

theorem applyTabOp_length_ge (tabs : List BrowserTab) (op : TabOp)
    (h : 1 ≤ tabs.length) : 1 ≤ (applyTabOp tabs op).length := by
  cases op with
  | addTab url isPrivate =>
      simp only [applyTabOp, add_tab, List.length_append]
      omega
  | closeTab i => exact close_tab_length_ge tabs i h

theorem restore_foldl_eq_map (entries : List SessionEntry) :
    ∀ acc : List BrowserTab,
      entries.foldl (fun tabs s => add_tab tabs (some s.url) s.isPrivate) acc =
        acc ++ entries.map restoreEntry := by
  induction entries with
  | nil => intro acc; simp
  | cons s rest ih =>
      intro acc
      rw [List.foldl_cons, ih, List.map_cons]
      have : add_tab acc (some s.url) s.isPrivate = acc ++ [restoreEntry s] := by
        by_cases h : s.url = ""
        · simp [add_tab, restoreEntry, h]
        · simp [add_tab, restoreEntry, h]
      rw [this, List.append_assoc]
      rfl

theorem foldl_tabOps_length_ge (ops : List TabOp) :
    ∀ tabs : List BrowserTab, 1 ≤ tabs.length →
      1 ≤ (ops.foldl applyTabOp tabs).length := by
  induction ops with
  | nil => intro tabs h; exact h
  | cons op rest ih =>
      intro tabs h
      exact ih (applyTabOp tabs op) (applyTabOp_length_ge tabs op h)

end Browser

open Browser

/-- C1: Starting from the initial window (one default tab), no sequence
of `add_tab` / `close_tab` operations empties the tab collection;
`close_tab i` removes the tab at index `i` when more than one tab is
open and is a no-op when exactly one tab remains. -/
theorem c1_tab_collection_never_empty :
    (∀ ops : List TabOp, 1 ≤ (runTabOps ops).length) ∧
    (∀ (tabs : List BrowserTab) (i : Nat), tabs.length = 1 →
      close_tab tabs i = tabs) ∧
    (∀ (tabs : List BrowserTab) (i : Nat), 1 < tabs.length →
      close_tab tabs i = tabs.eraseIdx i) := by
  refine ⟨fun ops => ?_, fun tabs i h1 => ?_, fun tabs i h2 => ?_⟩
  · unfold runTabOps
    apply foldl_tabOps_length_ge
    simp [add_tab]
  · simp [close_tab, h1]
  · simp [close_tab, h2]

/-- Witness for C1 at a concrete operation sequence and a concrete
one-tab collection. -/
theorem c1_tab_collection_never_empty_witness :
    1 ≤ (runTabOps
      [.closeTab 0, .addTab (some "https://a.com") true,
       .closeTab 1, .closeTab 0, .closeTab 0]).length ∧
    close_tab [BrowserTab.init false] 0 = [BrowserTab.init false] ∧
    close_tab [BrowserTab.init false, BrowserTab.init true] 0 =
      [BrowserTab.init true] :=
  ⟨c1_tab_collection_never_empty.1 _,
   c1_tab_collection_never_empty.2.1 _ 0 (by decide),
   by
     have h := c1_tab_collection_never_empty.2.2
       [BrowserTab.init false, BrowserTab.init true] 0 (by decide)
     rw [h]; rfl⟩

theorem restoreEntry_save (w : BrowserTab) (h : w.is_home = false → w.url ≠ "") :
    (restoreEntry ⟨if w.is_home then "" else w.url, w.isPrivate⟩).isPrivate =
      w.isPrivate ∧
    (restoreEntry ⟨if w.is_home then "" else w.url, w.isPrivate⟩).is_home =
      w.is_home ∧
    (w.is_home = false →
      (restoreEntry ⟨if w.is_home then "" else w.url, w.isPrivate⟩).url = w.url) := by
  by_cases hh : w.is_home = true
  · simp [restoreEntry, hh, BrowserTab.init]
  · have hh' : w.is_home = false := by
      cases hhome : w.is_home
      · rfl
      · exact absurd hhome hh
    have hu := h hh'
    simp [restoreEntry, hh', hu, load_url, BrowserTab.init]

/-- C3: Serializing the open tabs to a session snapshot and restoring
from it reconstructs the same number of tabs, with matching private
flags, matching home states (home tabs come back as home tabs, not as
tabs navigated to an empty url), and matching loaded urls for non-home
tabs.  The window invariant supplies the hypotheses: at least one tab
is open, and a tab that has left home displays a non-empty url. -/
theorem c3_session_round_trip (tabs : List BrowserTab) (hne : tabs ≠ [])
    (hurl : ∀ w ∈ tabs, w.is_home = false → w.url ≠ "") :
    (restore_session (save_session tabs)).length = tabs.length ∧
    ∀ k : Nat,
      ((restore_session (save_session tabs))[k]?).map (·.isPrivate) =
        (tabs[k]?).map (·.isPrivate) ∧
      ((restore_session (save_session tabs))[k]?).map (·.is_home) =
        (tabs[k]?).map (·.is_home) ∧
      (∀ w, tabs[k]? = some w → w.is_home = false →
        ((restore_session (save_session tabs))[k]?).map (·.url) =
          some w.url) := by
  have hmap : restore_session (save_session tabs) =
      tabs.map (fun w =>
        restoreEntry ⟨if w.is_home then "" else w.url, w.isPrivate⟩) := by
    unfold restore_session
    rw [if_neg (by simp [save_session, hne]), restore_foldl_eq_map,
      List.nil_append]
    unfold save_session
    rw [List.map_map]
    rfl
  refine ⟨by rw [hmap, List.length_map], fun k => ?_⟩
  rw [hmap, List.getElem?_map]
  cases hk : tabs[k]? with
  | none => simp
  | some w =>
      have hw : w ∈ tabs := List.getElem?_mem hk
      have hre := restoreEntry_save w (hurl w hw)
      refine ⟨?_, ?_, ?_⟩
      · simp [hre.1]
      · simp [hre.2.1]
      · intro v hv hvh
        cases hv
        simp [hre.2.2 hvh]

/-- Witness for C3: a window with a loaded non-private tab, a home
private tab and a loaded private tab survives the round trip. -/
theorem c3_session_round_trip_witness :
    (restore_session (save_session
      [⟨false, false, true, "https://a.com"⟩,
       ⟨true, true, true, ""⟩,
       ⟨true, false, true, "https://b.com"⟩])).length = 3 ∧
    ((restore_session (save_session
      [⟨false, false, true, "https://a.com"⟩,
       ⟨true, true, true, ""⟩,
       ⟨true, false, true, "https://b.com"⟩]))[2]?).map (·.url) =
      some "https://b.com" := by
  have h := c3_session_round_trip
    [⟨false, false, true, "https://a.com"⟩,
     ⟨true, true, true, ""⟩,
     ⟨true, false, true, "https://b.com"⟩]
    (by decide) (by decide)
  exact ⟨h.1, (h.2 2).2.2 ⟨true, false, true, "https://b.com"⟩ rfl rfl⟩

/-- C2: Navigating a non-private tab that is not in home state to a
non-empty url `u` leaves `u` appearing exactly once in the shared
history, keeps the history duplicate-free, and a repeated navigation to
`u` changes nothing (idempotent append-if-absent). -/
theorem c2_history_unique_insertion (history : List String)
    (t : BrowserTab) (u : String) (hhome : t.is_home = false)
    (hpriv : t.isPrivate = false) (hu : u ≠ "") (hnd : history.Nodup) :
    (on_url_changed history t u).1.count u = 1 ∧
    (on_url_changed history t u).1.Nodup ∧
    on_url_changed (on_url_changed history t u).1 t u =
      ((on_url_changed history t u).1, false) := by
  have hcond : ¬(u = "" ∨ t.is_home = true) := by
    simp [hu, hhome]
  by_cases hmem : u ∈ history
  · have heq : on_url_changed history t u = (history, false) := by
      simp [on_url_changed, hhome, hu, hmem]
    refine ⟨?_, ?_, ?_⟩
    · rw [heq]; exact List.count_eq_one_of_mem hnd hmem
    · rw [heq]; exact hnd
    · rw [heq]; simp [on_url_changed, hhome, hu, hmem]
  · have heq : on_url_changed history t u = (history ++ [u], true) := by
      simp [on_url_changed, hhome, hpriv, hu, hmem]
    refine ⟨?_, ?_, ?_⟩
    · rw [heq]
      simp [List.count_append, List.count_eq_zero_of_not_mem hmem]
    · rw [heq]
      simp [List.nodup_append, hnd, hmem]
    · rw [heq]
      simp [on_url_changed, hhome, hu]

/-- Witness for C2: a fresh non-private tab that has left home,
navigated twice to the same url. -/
theorem c2_history_unique_insertion_witness :
    (on_url_changed [] (load_url (BrowserTab.init false) "https://a.com")
        "https://a.com").1.count "https://a.com" = 1 :=
  (c2_history_unique_insertion [] _ "https://a.com" rfl rfl
    (by decide) List.nodup_nil).1

/-- C4: A url-changed event on a private tab leaves the shared history
untouched and never calls `save_json` for the history file. -/
theorem c4_private_history_frame (history : List String) (t : BrowserTab)
    (u : String) (hpriv : t.isPrivate = true) :
    on_url_changed history t u = (history, false) := by
  unfold on_url_changed
  split
  · rfl
  · rw [if_neg]
    simp [hpriv]

/-- Witness for C4: a private tab that has left home, navigating with a
non-empty history in place. -/
theorem c4_private_history_frame_witness :
    on_url_changed ["https://a.com"]
      (load_url (BrowserTab.init true) "https://b.com") "https://b.com" =
      (["https://a.com"], false) :=
  c4_private_history_frame _ _ _ rfl

/-- C5 (behavior of the code at the claim's scenario): for every tab
and url, `load_url` followed by the `loadFinished` dispatch leaves
`is_home = true` — `finish_load` unconditionally re-enters home state,
so the tab is NOT in a loaded (non-home) state afterwards, contrary to
the claim that only an explicit go-home returns the tab to home. -/
theorem c5_load_finished_reenters_home (t : BrowserTab) (u : String) :
    ((on_load_finished (load_url t u)).1).is_home = true := rfl

/-- C6 (behavior of the code at the claim's scenario): every
`loadFinished` dispatch runs the ad-block script zero times, home page
or not, because `finish_load` (connected first) has already set
`is_home = true` by the time `inject_adblock_js` checks it.  In
particular a non-home load triggers 0 executions, not the 1 the claim
states. -/
theorem c6_adblock_never_runs (t : BrowserTab) :
    (on_load_finished t).2 = 0 := rfl

/-- C7: Address-bar resolution in both variants: `"example.com"`
resolves to `"https://example.com"`, an explicit `"https://..."` input
is kept unchanged, and in the variant with search fallback
`"hello world"` resolves to the DuckDuckGo endpoint carrying the
percent-encoded query `"hello+world"`. -/
theorem c7_address_bar_resolution :
    navigate "example.com" = "https://example.com" ∧
    navigate "https://example.com" = "https://example.com" ∧
    navigateV3 "example.com" = "https://example.com" ∧
    navigateV3 "https://example.com" = "https://example.com" ∧
    navigateV3 "hello world" = "https://duckduckgo.com/?q=" ++ "hello+world" := by
  refine ⟨?_, ?_, ?_, ?_, ?_⟩ <;> decide

/-- C8 counterexample: with the active tab on the home page,
`add_bookmark` falls through its guard and shows no notice at all,
refuting the claim that this case is rejected with a user-visible
notice. -/
theorem c8_home_page_counterexample :
    (add_bookmark true "https://example.com" "Example" []).2.1 = none := rfl

/-- C8 (amended): `add_bookmark` is a silent no-op — no notice, no
persist — when the active tab is on the home page; it is rejected with
the 'already bookmarked' notice when the current url is already in the
collection; otherwise it appends `{title, url}` and persists.  Calling
it twice with the tab at the same fresh url leaves exactly one entry
for that url and shows the rejection notice on the second call. -/
theorem c8_bookmark_amended (url title title2 : String)
    (bookmarks : List Bookmark) :
    (add_bookmark true url title bookmarks = (bookmarks, none, false)) ∧
    ((∃ b ∈ bookmarks, b.url = url) →
      add_bookmark false url title bookmarks =
        (bookmarks, some .alreadyBookmarked, false)) ∧
    (url ∉ bookmarks.map (·.url) →
      add_bookmark false url title bookmarks =
        (bookmarks ++ [⟨title, url⟩], some (.bookmarked title), true)) ∧
    (url ∉ bookmarks.map (·.url) →
      add_bookmark false url title2
          (add_bookmark false url title bookmarks).1 =
        ((add_bookmark false url title bookmarks).1,
          some .alreadyBookmarked, false) ∧
      (add_bookmark false url title2
          (add_bookmark false url title bookmarks).1).1.countP
        (fun b => b.url == url) = 1) := by
  have hfresh : url ∉ bookmarks.map (·.url) →
      bookmarks.any (fun b => b.url == url) = false := by
    intro hnew
    rw [List.any_eq_false]
    intro b hb
    simp only [beq_iff_eq]
    intro hbe
    exact hnew (hbe ▸ List.mem_map_of_mem (·.url) hb)
  refine ⟨?_, ?_, ?_, ?_⟩
  · simp [add_bookmark]
  · intro ⟨b, hb, hbu⟩
    have : bookmarks.any (fun b => b.url == url) = true := by
      rw [List.any_eq_true]
      exact ⟨b, hb, by simp [hbu]⟩
    simp [add_bookmark, this]
  · intro hnew
    simp [add_bookmark, hfresh hnew]
  · intro hnew
    have h1 : add_bookmark false url title bookmarks =
        (bookmarks ++ [⟨title, url⟩], some (.bookmarked title), true) := by
      simp [add_bookmark, hfresh hnew]
    have h2 : (bookmarks ++ [(⟨title, url⟩ : Bookmark)]).any
        (fun b => b.url == url) = true := by
      rw [List.any_eq_true]
      exact ⟨⟨title, url⟩, by simp, by simp⟩
    constructor
    · rw [h1]
      simp [add_bookmark, h2]
    · rw [h1]
      have hz : bookmarks.countP (fun b => b.url == url) = 0 := by
        rw [List.countP_eq_zero]
        intro b hb
        simp only [beq_iff_eq]
        intro hbe
        exact hnew (hbe ▸ List.mem_map_of_mem (·.url) hb)
      simp [add_bookmark, h2, List.countP_append, hz]

/-- Witness for C8 (amended): a duplicate add against a one-entry
collection is rejected, and a double add starting from the empty
collection leaves exactly one entry. -/
theorem c8_bookmark_amended_witness :
    add_bookmark false "https://a.com" "B" [⟨"A", "https://a.com"⟩] =
      ([⟨"A", "https://a.com"⟩], some .alreadyBookmarked, false) ∧
    (add_bookmark false "https://a.com" "A2"
        (add_bookmark false "https://a.com" "A" []).1).1.countP
      (fun b => b.url == "https://a.com") = 1 :=
  ⟨(c8_bookmark_amended "https://a.com" "B" "x"
      [⟨"A", "https://a.com"⟩]).2.1
      ⟨⟨"A", "https://a.com"⟩, by decide, rfl⟩,
   ((c8_bookmark_amended "https://a.com" "A" "A2" []).2.2.2
      (by decide)).2⟩

/-- C9: the persistent store contract: `load_json` returns the parsed
contents on success and the supplied default on read failure or parse
failure — its plain (non-raising) return type is totality to the
caller; `save_json` overwrites the file on success, and on write
failure swallows the error, returning normally with the file system
unchanged. -/
theorem c9_store_contract {α : Type} (fs : FileSys) (path : String)
    (parse : String → PyResult α) (default : α) (serialized : String) :
    (∀ s v, fsRead fs path = .ok s → parse s = .ok v →
      load_json fs path parse default = v) ∧
    (fsRead fs path = .exc → load_json fs path parse default = default) ∧
    (∀ s, fsRead fs path = .ok s → parse s = .exc →
      load_json fs path parse default = default) ∧
    (∀ fs2, fsWrite fs path serialized = .ok fs2 →
      save_json fs path serialized = fs2 ∧
      fsRead fs2 path = .ok serialized) ∧
    (fsWrite fs path serialized = .exc →
      save_json fs path serialized = fs) := by
  refine ⟨?_, ?_, ?_, ?_, ?_⟩
  · intro s v hr hp
    simp [load_json, hr, hp]
  · intro hr
    simp [load_json, hr]
  · intro s hr hp
    simp [load_json, hr, hp]
  · intro fs2 hw
    refine ⟨by simp [save_json, hw], ?_⟩
    unfold fsWrite at hw
    split at hw
    · cases hw
      simp [fsRead]
    · cases hw
  · intro hw
    simp [save_json, hw]

/-- Witness for C9: a store holding a parsable `history.json`, where
`bookmarks.json` is writable but `history.json` is not. -/
theorem c9_store_contract_witness :
    load_json ⟨[("history.json", "[]")], ["bookmarks.json"]⟩ "history.json"
      (fun s => if s = "[]" then PyResult.ok 1 else .exc) 0 = 1 ∧
    load_json ⟨[("history.json", "[]")], ["bookmarks.json"]⟩ "missing.json"
      (fun s => if s = "[]" then PyResult.ok 1 else .exc) 0 = 0 ∧
    save_json ⟨[("history.json", "[]")], ["bookmarks.json"]⟩ "history.json"
      "corrupting" = ⟨[("history.json", "[]")], ["bookmarks.json"]⟩ ∧
    fsRead (save_json ⟨[("history.json", "[]")], ["bookmarks.json"]⟩
      "bookmarks.json" "[1]") "bookmarks.json" = .ok "[1]" :=
  ⟨(c9_store_contract ⟨[("history.json", "[]")], ["bookmarks.json"]⟩
      "history.json" (fun s => if s = "[]" then PyResult.ok 1 else .exc) 0
      "x").1 "[]" 1 rfl (by simp),
   (c9_store_contract ⟨[("history.json", "[]")], ["bookmarks.json"]⟩
      "missing.json" (fun s => if s = "[]" then PyResult.ok 1 else .exc) 0
      "x").2.1 rfl,
   (c9_store_contract ⟨[("history.json", "[]")], ["bookmarks.json"]⟩
      "history.json" (fun s => if s = "[]" then PyResult.ok 1 else .exc) 0
      "corrupting").2.2.2.2 (by decide),
   ((c9_store_contract ⟨[("history.json", "[]")], ["bookmarks.json"]⟩
      "bookmarks.json" (fun s => if s = "[]" then PyResult.ok 1 else .exc) 0
      "[1]").2.2.2.1 _ (by decide)).2⟩

theorem getElem?_setTabText_self (l : List TabItem) (i : Nat) (s : String) :
    (setTabText l i s)[i]? = (l[i]?).map (fun w => { w with label := s }) := by
  induction l generalizing i with
  | nil => simp [setTabText]
  | cons a as ih =>
      cases i with
      | zero => simp [setTabText]
      | succ n => simpa [setTabText] using ih n

theorem getElem?_setTabText_ne (l : List TabItem) (i k : Nat) (s : String)
    (h : k ≠ i) : (setTabText l i s)[k]? = l[k]? := by
  induction l generalizing i k with
  | nil => simp [setTabText]
  | cons a as ih =>
      cases i with
      | zero =>
          cases k with
          | zero => exact absurd rfl h
          | succ m => simp [setTabText]
      | succ n =>
          cases k with
          | zero => simp [setTabText]
          | succ m => simpa [setTabText] using ih n m (by omega)

/-- C10: The title-changed slot of a tab created at position `i`
always writes the label at the captured index `i`.  After `close_tab
j` with `j < i`, the tab itself sits, unchanged, at position `i - 1`
(first two conjuncts: before and after the title event fires), while
the event overwrote the label of the tab now occupying position `i` —
the one originally at `i + 1` (third conjunct). -/
theorem c10_title_handler_stale_index (tabs : List TabItem) (i j : Nat)
    (t : String) (hij : j < i) (hlen : i + 1 < tabs.length) (ht : t ≠ "") :
    (close_tab tabs j)[i - 1]? = tabs[i]? ∧
    (title_changed_handler (close_tab tabs j) i t)[i - 1]? = tabs[i]? ∧
    (title_changed_handler (close_tab tabs j) i t)[i]? =
      (tabs[i + 1]?).map (fun w => { w with label := t }) := by
  have hcl : close_tab tabs j = tabs.eraseIdx j := by
    unfold close_tab
    rw [if_pos (by omega)]
  have h1 : (tabs.eraseIdx j)[i - 1]? = tabs[i]? := by
    have h := List.getElem?_eraseIdx_of_ge tabs j (i - 1) (by omega)
    rwa [show i - 1 + 1 = i by omega] at h
  have h2 : (tabs.eraseIdx j)[i]? = tabs[i + 1]? :=
    List.getElem?_eraseIdx_of_ge tabs j i (by omega)
  refine ⟨by rw [hcl]; exact h1, ?_, ?_⟩
  · rw [hcl]
    unfold title_changed_handler
    rw [getElem?_setTabText_ne _ _ _ _ (by omega)]
    exact h1
  · rw [hcl]
    unfold title_changed_handler
    rw [getElem?_setTabText_self, h2]
    simp [ht]

/-- Witness for C10: three tabs; closing tab 0 moves the tab created
at position 1 to position 0, yet its title event relabels position 1 —
the tab created at position 2 — leaving its own label untouched. -/
theorem c10_title_handler_stale_index_witness :
    (title_changed_handler (close_tab
      [⟨0, 0, "A"⟩, ⟨1, 1, "B"⟩, ⟨2, 2, "C"⟩] 0) 1 "T")[0]? =
      some ⟨1, 1, "B"⟩ ∧
    (title_changed_handler (close_tab
      [⟨0, 0, "A"⟩, ⟨1, 1, "B"⟩, ⟨2, 2, "C"⟩] 0) 1 "T")[1]? =
      some ⟨2, 2, "T"⟩ := by
  have h := c10_title_handler_stale_index
    [⟨0, 0, "A"⟩, ⟨1, 1, "B"⟩, ⟨2, 2, "C"⟩] 1 0 "T"
    (by decide) (by decide) (by decide)
  exact ⟨h.2.1, by rw [h.2.2]; rfl⟩

